import Mathlib

/-!
Shallow embedding of the doctors-portal booking backend (src/main.py).

The MongoDB collections are modelled as Lean lists of documents in
insertion order; `find_one` is `List.find?`, `find` with a filter is
`List.filter`, `insert_one` appends, and `update_one ... upsert=True`
updates the first match or appends a fresh document.  FastAPI's
`HTTPException(status_code, detail)` is a two-field structure, and every
fallible handler returns `Except HTTPException α`.  PyJWT tokens are
modelled structurally: an encoded token is the claim set {email, exp}
together with the key it was signed with; `jwt.decode` succeeds exactly
when the keys agree and the expiry check passes (PyJWT raises
`ExpiredSignatureError` when `exp <= now`, which `get_current_user`
catches with its generic handler, while a bad signature raises a
`DecodeError`).  Times are seconds since the epoch as naturals.
-/

namespace DoctorsPortal

/-- FastAPI's HTTPException, carrying a status code and a detail string. -/
structure HTTPException where
  status_code : Nat
  detail : String
deriving DecidableEq, Repr

/-- A status code in the 4xx range, the "Conflict-class" / client-error band. -/
def HTTPException.isClientError (e : HTTPException) : Prop :=
  400 ≤ e.status_code ∧ e.status_code < 500

instance (e : HTTPException) : Decidable e.isClientError := by
  unfold HTTPException.isClientError; infer_instance

/-- Pydantic model AppointmentOption (src/main.py:70-78); the store id is
irrelevant to the claims and omitted. -/
structure AppointmentOption where
  name : String
  slots : List String
  price : Rat
deriving DecidableEq, Repr

/-- Pydantic model Booking (src/main.py:82-93). -/
structure Booking where
  appointmentDate : String
  treatment : String
  patient : String
  slot : String
  email : String
  phone : String
  price : Rat
deriving DecidableEq, Repr

/-- A raw document of the users collection.  Fields other than `_id` are
optional because the admin-promotion upsert (src/main.py:359) can create a
document holding only `_id` and `role`; `doc.get` on a missing field
yields `none`. -/
structure UserDoc where
  uid : String
  name : Option String
  email : Option String
  role : Option String
deriving DecidableEq, Repr

/-- Pydantic model Doctor (src/main.py:108-115). -/
structure Doctor where
  name : String
  email : String
  img : String
deriving DecidableEq, Repr

/-- timedelta(days=2) (src/main.py:52), in seconds. -/
def JWT_EXPIRATION_TIME : Nat := 2 * 24 * 60 * 60

/-- An encoded JWT: the embedded claims plus the signing key.
`jwt.encode(payload, key, alg)` packages exactly this information. -/
structure JwtToken where
  email : String
  exp : Nat
  key : String
deriving DecidableEq, Repr

/-- create_jwt_token (src/main.py:166-168): sign {email, exp = now + 2 days}. -/
def create_jwt_token (secret : String) (now : Nat) (email : String) : JwtToken :=
  { email := email, exp := now + JWT_EXPIRATION_TIME, key := secret }

/-- get_current_user (src/main.py:172-179): `jwt.decode` raises a
`DecodeError` on a signature mismatch (caught as 401 "Invalid token") and an
`ExpiredSignatureError` when `exp <= now` (caught by the generic handler as
401 "Invalid token: Signature has expired"); otherwise the embedded email is
returned. -/
def get_current_user (secret : String) (now : Nat) (token : JwtToken) :
    Except HTTPException String :=
  if token.key ≠ secret then .error ⟨401, "Invalid token"⟩
  else if token.exp ≤ now then .error ⟨401, "Invalid token: Signature has expired"⟩
  else .ok token.email

/-- handle_get_jwt (src/main.py:315-321): issue a token only for an email
with a matching user document. -/
def handle_get_jwt (users : List UserDoc) (secret : String) (now : Nat)
    (email : String) : Except HTTPException JwtToken :=
  match users.find? (fun u => u.email = some email) with
  | none => .error ⟨401, "Unauthorized"⟩
  | some _ => .ok (create_jwt_token secret now email)

/-- verify_admin (src/main.py:183-187): look the user up by email; 403 when
no user is found or its role is not "admin", otherwise pass the email
through. -/
def verify_admin (users : List UserDoc) (user_email : String) :
    Except HTTPException String :=
  match users.find? (fun u => u.email = some user_email) with
  | none => .error ⟨403, "Forbidden access"⟩
  | some u =>
      if u.role ≠ some "admin" then .error ⟨403, "Forbidden access"⟩
      else .ok user_email

/-- Python's str.lower() restricted to the ASCII range the code compares
against. -/
def pyLower (s : String) : String := String.mk (s.data.map Char.toLower)

/-- Accumulator pass behind `pyStrSplit`: collect the current word (in
reverse) and emit it at each whitespace run, as Python's `str.split()`
does. -/
def splitWords : List Char → List Char → List String
  | [], acc => if acc = [] then [] else [String.mk acc.reverse]
  | c :: cs, acc =>
      if c.isWhitespace then
        if acc = [] then splitWords cs []
        else String.mk acc.reverse :: splitWords cs []
      else splitWords cs (c :: acc)

/-- Python's `str.split()` with no separator: split on runs of whitespace,
dropping empty pieces. -/
def pyStrSplit (s : String) : List String := splitWords s.data []

/-- verify_jwt (src/main.py:192-201).  The token-verification step
(`get_current_user` on the raw token string) is passed in as `check`, so the
header handling can be stated independently of JWT wire decoding:
a missing or empty header is 401 "Not authenticated"; unpacking
`authorization.split()` into two parts raises ValueError unless the split
yields exactly two tokens (401 "Invalid authorization header"); a scheme
whose lowercasing is not "bearer" is 401 "Invalid authentication scheme";
otherwise the result is `check token`. -/
def verify_jwt (check : String → Except HTTPException String)
    (authorization : Option String) : Except HTTPException String :=
  match authorization with
  | none => .error ⟨401, "Not authenticated"⟩
  | some s =>
      if s = "" then .error ⟨401, "Not authenticated"⟩
      else
        match pyStrSplit s with
        | [scheme, token] =>
            if pyLower scheme ≠ "bearer" then
              .error ⟨401, "Invalid authentication scheme"⟩
            else check token
        | _ => .error ⟨401, "Invalid authorization header"⟩

/-- The {name, slots, price} view a resolver returns (the pydantic response
model with the store id dropped, as `AppointmentOption(**opt)` drops `_id`). -/
structure OptionView where
  name : String
  slots : List String
  price : Rat
deriving DecidableEq, Repr

/-- handle_get_appointment_options (src/main.py:214-227): load every option,
load the bookings of the requested date, and for each option keep the slots
not booked for its treatment. -/
def handle_get_appointment_options (options : List AppointmentOption)
    (bookings : List Booking) (date : String) : List OptionView :=
  let already_booked := bookings.filter (fun b => b.appointmentDate = date)
  options.map (fun option =>
    let booked_slots :=
      (already_booked.filter (fun b => b.treatment = option.name)).map (fun b => b.slot)
    let remaining_slots := option.slots.filter (fun s => s ∉ booked_slots)
    { name := option.name, slots := remaining_slots, price := option.price })

/-- First-occurrence deduplication, tracking the elements already seen. -/
def dedupKeepFirst (seen : List String) : List String → List String
  | [] => []
  | x :: xs =>
      if x ∈ seen then dedupKeepFirst seen xs
      else x :: dedupKeepFirst (x :: seen) xs

/-- MongoDB's `$setDifference`: the members of the first array that are not
in the second, treated as a set (duplicates removed, first occurrences
kept). -/
def setDifference (a b : List String) : List String :=
  dedupKeepFirst [] (a.filter (fun s => s ∉ b))

/-- handle_get_v2_appointment_options (src/main.py:231-250): the aggregation
pipeline `$lookup`s the bookings whose treatment equals the option name and
whose appointmentDate equals the input, `$map`s them to their slot, and
projects `slots` to the `$setDifference` of the option's slots and the
booked slots. -/
def handle_get_v2_appointment_options (options : List AppointmentOption)
    (bookings : List Booking) (data : String) : List OptionView :=
  options.map (fun option =>
    let booked :=
      (bookings.filter (fun b => b.treatment = option.name ∧ b.appointmentDate = data)).map
        (fun b => b.slot)
    { name := option.name, slots := setDifference option.slots booked,
      price := option.price })

/-- handle_get_bookings (src/main.py:255-261): 403 "Forbidden" when the
requested email differs from the authenticated identity, otherwise the
stored bookings with that email. -/
def handle_get_bookings (store : List Booking) (email : String)
    (current_user_email : String) : Except HTTPException (List Booking) :=
  if email ≠ current_user_email then .error ⟨403, "Forbidden"⟩
  else .ok (store.filter (fun b => b.email = email))

/-- handle_post_booking (src/main.py:276-288): when a stored booking already
has the same (appointmentDate, email, treatment), raise
HTTPException(status_code=200, ...) and leave the collection alone;
otherwise insert the booking and return it.  The result pairs the new
collection state with the response. -/
def handle_post_booking (store : List Booking) (booking : Booking) :
    List Booking × Except HTTPException Booking :=
  match store.find? (fun b =>
      b.appointmentDate = booking.appointmentDate ∧
      b.email = booking.email ∧ b.treatment = booking.treatment) with
  | some _ =>
      (store, .error ⟨200, "You already have a booking on " ++ booking.appointmentDate⟩)
  | none => (store ++ [booking], .ok booking)

/-- handle_get_user_admin_by_email (src/main.py:348-353): true exactly when
the looked-up user document exists and its role is "admin"; no
authentication, no store write, no failure path. -/
def handle_get_user_admin_by_email (users : List UserDoc) (email : String) : Bool :=
  match users.find? (fun u => u.email = some email) with
  | some user => user.role = some "admin"
  | none => false

/-- `update_one` on the first document matching the id: set its role to
"admin", leave everything else alone. -/
def updateFirstAdmin (id : String) : List UserDoc → List UserDoc
  | [] => []
  | u :: us =>
      if u.uid = id then { u with role := some "admin" } :: us
      else u :: updateFirstAdmin id us

/-- handle_put_user_admin_by_id (src/main.py:357-360):
`update_one({_id: id}, {$set: {role: "admin"}}, upsert=True)` — update the
matching document when one exists, otherwise insert a fresh document
carrying only the id and the role. -/
def handle_put_user_admin_by_id (users : List UserDoc) (id : String) :
    List UserDoc :=
  if users.any (fun u => u.uid = id) then updateFirstAdmin id users
  else users ++ [{ uid := id, name := none, email := none, role := some "admin" }]

/-- handle_get_doctors (src/main.py:364-368) together with its dependency
chain: the identity produced by `get_current_user` is fed to `verify_admin`,
and only then is the doctors collection returned. -/
def handle_get_doctors (users : List UserDoc) (doctors : List Doctor)
    (secret : String) (now : Nat) (token : JwtToken) :
    Except HTTPException (List Doctor) :=
  match get_current_user secret now token with
  | .error e => .error e
  | .ok email =>
      match verify_admin users email with
      | .error e => .error e
      | .ok _ => .ok doctors

/-! ### Claim theorems -/

/-- C7: requesting the bookings of email B under authenticated identity A is
rejected with 403 "Forbidden" when A ≠ B (no bookings are returned); when
A = B the handler returns exactly the stored bookings whose email is A, in
store order. -/
theorem bookings_self_scoped (store : List Booking) (A B : String)
    (hne : A ≠ B) :
    handle_get_bookings store B A = .error ⟨403, "Forbidden"⟩ ∧
    handle_get_bookings store A A = .ok (store.filter (fun b => b.email = A)) ∧
    (∀ b : Booking, b ∈ store.filter (fun b => b.email = A) ↔
      b ∈ store ∧ b.email = A) := by
  refine ⟨?_, ?_, ?_⟩
  · unfold handle_get_bookings
    rw [if_pos]
    exact fun h => hne h.symm
  · unfold handle_get_bookings
    rw [if_neg]
    simp
  · intro b
    simp [List.mem_filter]

theorem bookings_self_scoped_witness :
    handle_get_bookings
        [{ appointmentDate := "2024-05-01", treatment := "Teeth Cleaning",
           patient := "Bo", slot := "9:00", email := "b@x.com", phone := "1",
           price := 10 }] "b@x.com" "a@x.com" = .error ⟨403, "Forbidden"⟩ :=
  (bookings_self_scoped _ "a@x.com" "b@x.com" (by decide)).1

/-- C9: the admin-status query is a pure, total boolean: it answers true
exactly when a user document with the given email exists and has role
"admin", and false in every other case, provided emails identify at most one
user document (the store enforces no email uniqueness, but the data model
treats email as the identity key). -/
theorem admin_status_query (users : List UserDoc) (E : String)
    (huniq : ∀ u ∈ users, ∀ v ∈ users,
      u.email = some E → v.email = some E → u = v) :
    (handle_get_user_admin_by_email users E = true ↔
      ∃ u ∈ users, u.email = some E ∧ u.role = some "admin") ∧
    (handle_get_user_admin_by_email users E = false ↔
      ¬ ∃ u ∈ users, u.email = some E ∧ u.role = some "admin") := by
  have main : handle_get_user_admin_by_email users E = true ↔
      ∃ u ∈ users, u.email = some E ∧ u.role = some "admin" := by
    unfold handle_get_user_admin_by_email
    cases hfind : users.find? (fun u => u.email = some E) with
    | none =>
        simp only [Bool.false_eq_true, false_iff]
        rintro ⟨u, hu, hue, -⟩
        have := List.find?_eq_none.mp hfind u hu
        simp [hue] at this
    | some u =>
        have hmem : u ∈ users := List.mem_of_find?_eq_some hfind
        have hue : u.email = some E := by
          have := List.find?_some hfind
          simpa using this
        simp only [decide_eq_true_eq]
        constructor
        · intro hrole
          exact ⟨u, hmem, hue, hrole⟩
        · rintro ⟨v, hv, hve, hvrole⟩
          have : v = u := huniq v hv u hmem hve hue
          simpa [this] using hvrole
  refine ⟨main, ?_⟩
  rw [← main]
  cases handle_get_user_admin_by_email users E <;> simp

theorem admin_status_query_witness :
    handle_get_user_admin_by_email
        [{ uid := "1", name := some "Alice", email := some "a@x.com",
           role := some "admin" }] "a@x.com" = true :=
  (admin_status_query
      [{ uid := "1", name := some "Alice", email := some "a@x.com",
         role := some "admin" }] "a@x.com" (by decide)).1.mpr
    ⟨{ uid := "1", name := some "Alice", email := some "a@x.com",
       role := some "admin" }, by simp, rfl, rfl⟩

/-- C4: for an email with an existing user document, issuing a token at time
t0 yields the signed claim set {email, exp = t0 + 2 days}; verifying it with
the same secret at any time strictly inside the two-day window recovers
exactly that email, and verifying at or after expiry fails with the 401
invalid-token error. -/
theorem token_round_trip (users : List UserDoc) (secret E : String)
    (t0 t : Nat) (hex : ∃ u ∈ users, u.email = some E) :
    handle_get_jwt users secret t0 E = .ok (create_jwt_token secret t0 E) ∧
    (t < t0 + JWT_EXPIRATION_TIME →
      get_current_user secret t (create_jwt_token secret t0 E) = .ok E) ∧
    (t0 + JWT_EXPIRATION_TIME ≤ t →
      get_current_user secret t (create_jwt_token secret t0 E) =
        .error ⟨401, "Invalid token: Signature has expired"⟩) := by
  refine ⟨?_, ?_, ?_⟩
  · unfold handle_get_jwt
    obtain ⟨u, hu, hue⟩ := hex
    cases hfind : users.find? (fun u => u.email = some E) with
    | none =>
        have := List.find?_eq_none.mp hfind u hu
        simp [hue] at this
    | some v => rfl
  · intro ht
    have hnle : ¬ (t0 + JWT_EXPIRATION_TIME ≤ t) := by omega
    simp [get_current_user, create_jwt_token, hnle]
  · intro ht
    simp [get_current_user, create_jwt_token, ht]

theorem token_round_trip_witness :
    get_current_user "sec" 100
        (create_jwt_token "sec" 0 "a@x.com") = .ok "a@x.com" ∧
    get_current_user "sec" 172800
        (create_jwt_token "sec" 0 "a@x.com") =
      .error ⟨401, "Invalid token: Signature has expired"⟩ := by
  have h := token_round_trip
    [{ uid := "1", name := some "Alice", email := some "a@x.com",
       role := some "admin" }] "sec" "a@x.com" 0 100
    ⟨{ uid := "1", name := some "Alice", email := some "a@x.com",
       role := some "admin" }, by simp, rfl⟩
  have h2 := token_round_trip
    [{ uid := "1", name := some "Alice", email := some "a@x.com",
       role := some "admin" }] "sec" "a@x.com" 0 172800
    ⟨{ uid := "1", name := some "Alice", email := some "a@x.com",
       role := some "admin" }, by simp, rfl⟩
  exact ⟨h.2.1 (by decide), h2.2.2 (by decide)⟩

/-- C3 counterexample: posting a booking whose (email, treatment,
appointmentDate) triple matches a stored one leaves the collection unchanged
and raises the "already booked" exception — but that exception carries
status code 200, which is not in the 4xx Conflict class, so the response is
not a Conflict-class signal as the claim states. -/
theorem duplicate_booking_status_not_conflict_class :
    handle_post_booking
        [{ appointmentDate := "2024-05-01", treatment := "Teeth Cleaning",
           patient := "Al", slot := "9:00", email := "a@x.com", phone := "1",
           price := 10 }]
        { appointmentDate := "2024-05-01", treatment := "Teeth Cleaning",
          patient := "Al", slot := "10:00", email := "a@x.com", phone := "1",
          price := 10 } =
      ([{ appointmentDate := "2024-05-01", treatment := "Teeth Cleaning",
          patient := "Al", slot := "9:00", email := "a@x.com", phone := "1",
          price := 10 }],
        .error ⟨200, "You already have a booking on 2024-05-01"⟩) ∧
    ¬ (HTTPException.mk 200 "You already have a booking on 2024-05-01").isClientError := by
  exact ⟨rfl, by decide⟩

/-- C3 amended: a duplicate (email, treatment, appointmentDate) booking
request inserts nothing, leaves the collection unchanged, and returns an
"already booked" error response that is distinguishable from every
created-resource response by shape — but its status code is 200
(success class), not a Conflict-class 4xx status. -/
theorem duplicate_booking_rejected (store : List Booking) (booking : Booking)
    (hdup : ∃ b ∈ store, b.appointmentDate = booking.appointmentDate ∧
      b.email = booking.email ∧ b.treatment = booking.treatment) :
    (handle_post_booking store booking).1 = store ∧
    (handle_post_booking store booking).2 =
      .error ⟨200, "You already have a booking on " ++ booking.appointmentDate⟩ ∧
    (∀ c : Booking, (handle_post_booking store booking).2 ≠ .ok c) := by
  obtain ⟨b, hb, h1, h2, h3⟩ := hdup
  have hfind : (store.find? (fun b =>
      b.appointmentDate = booking.appointmentDate ∧
      b.email = booking.email ∧ b.treatment = booking.treatment)).isSome := by
    rw [List.find?_isSome]
    exact ⟨b, hb, by simp [h1, h2, h3]⟩
  unfold handle_post_booking
  cases hf : store.find? (fun b =>
      b.appointmentDate = booking.appointmentDate ∧
      b.email = booking.email ∧ b.treatment = booking.treatment) with
  | none => rw [hf] at hfind; simp at hfind
  | some x => exact ⟨rfl, rfl, fun c => by simp⟩

theorem duplicate_booking_rejected_witness :
    (handle_post_booking
        [{ appointmentDate := "2024-05-01", treatment := "Teeth Cleaning",
           patient := "Al", slot := "9:00", email := "a@x.com", phone := "1",
           price := 10 }]
        { appointmentDate := "2024-05-01", treatment := "Teeth Cleaning",
          patient := "Al", slot := "9:00", email := "a@x.com", phone := "1",
          price := 10 }).1 =
      [{ appointmentDate := "2024-05-01", treatment := "Teeth Cleaning",
         patient := "Al", slot := "9:00", email := "a@x.com", phone := "1",
         price := 10 }] :=
  (duplicate_booking_rejected _ _
    ⟨{ appointmentDate := "2024-05-01", treatment := "Teeth Cleaning",
       patient := "Al", slot := "9:00", email := "a@x.com", phone := "1",
       price := 10 }, by simp, rfl, rfl, rfl⟩).1

/-- Under pairwise-distinct ids, updating the first id match updates every
id match and nothing else. -/
theorem updateFirstAdmin_eq_map (users : List UserDoc) (id : String)
    (hids : users.Pairwise (fun a b => a.uid ≠ b.uid)) :
    updateFirstAdmin id users =
      users.map (fun u => if u.uid = id then { u with role := some "admin" } else u) := by
  induction users with
  | nil => rfl
  | cons u us ih =>
      rw [List.pairwise_cons] at hids
      unfold updateFirstAdmin
      by_cases hu : u.uid = id
      · rw [if_pos hu]
        simp only [List.map_cons, if_pos hu]
        congr 1
        have : ∀ v ∈ us, (if v.uid = id then { v with role := some "admin" } else v) = v := by
          intro v hv
          rw [if_neg]
          rw [← hu]
          exact (hids.1 v hv).symm
        rw [List.map_congr_left this]
        simp
      · rw [if_neg hu]
        simp only [List.map_cons, if_neg hu]
        congr 1
        exact ih hids.2

/-- C8: the admin-promotion operation has upsert semantics — when a user
document with the given id exists it gets role "admin" with uid, name and
email untouched and every other document unchanged, and when no document
matches, a fresh document {_id = id, role = "admin"} is appended. -/
theorem admin_promotion_upsert (users : List UserDoc) (id : String)
    (hids : users.Pairwise (fun a b => a.uid ≠ b.uid)) :
    ((∃ u ∈ users, u.uid = id) →
      handle_put_user_admin_by_id users id =
        users.map (fun u =>
          if u.uid = id then
            { uid := u.uid, name := u.name, email := u.email, role := some "admin" }
          else u)) ∧
    ((∀ u ∈ users, u.uid ≠ id) →
      handle_put_user_admin_by_id users id =
        users ++ [{ uid := id, name := none, email := none, role := some "admin" }]) := by
  constructor
  · rintro ⟨u, hu, huid⟩
    unfold handle_put_user_admin_by_id
    rw [if_pos (by rw [List.any_eq_true]; exact ⟨u, hu, by simp [huid]⟩)]
    exact updateFirstAdmin_eq_map users id hids
  · intro hnone
    unfold handle_put_user_admin_by_id
    rw [if_neg]
    rw [List.any_eq_true]
    rintro ⟨u, hu, huid⟩
    exact hnone u hu (by simpa using huid)

theorem admin_promotion_upsert_witness :
    handle_put_user_admin_by_id
        [{ uid := "1", name := some "Alice", email := some "a@x.com",
           role := some "user" }] "1" =
      [{ uid := "1", name := some "Alice", email := some "a@x.com",
         role := some "admin" }] ∧
    handle_put_user_admin_by_id
        [{ uid := "1", name := some "Alice", email := some "a@x.com",
           role := some "user" }] "2" =
      [{ uid := "1", name := some "Alice", email := some "a@x.com",
         role := some "user" },
       { uid := "2", name := none, email := none, role := some "admin" }] := by
  constructor
  · rw [(admin_promotion_upsert
        [{ uid := "1", name := some "Alice", email := some "a@x.com",
           role := some "user" }] "1" (by simp)).1
      ⟨{ uid := "1", name := some "Alice", email := some "a@x.com",
         role := some "user" }, by simp, rfl⟩]
    decide
  · rw [(admin_promotion_upsert
        [{ uid := "1", name := some "Alice", email := some "a@x.com",
           role := some "user" }] "2" (by simp)).2 (by decide)]
    decide

/-- C6: under the data model's email-uniqueness invariant, the admin check
fails with 403 "Forbidden access" exactly when no user document with the
verified email has role "admin", and otherwise passes the email through
unchanged; consequently the admin-gated doctors listing, given a token that
verifies to that email, returns the full doctors collection exactly when
such an admin user exists and 403 otherwise. -/
theorem admin_gate (users : List UserDoc) (E : String)
    (huniq : ∀ u ∈ users, ∀ v ∈ users,
      u.email = some E → v.email = some E → u = v) :
    ((verify_admin users E = .error ⟨403, "Forbidden access"⟩) ↔
      ¬ ∃ u ∈ users, u.email = some E ∧ u.role = some "admin") ∧
    ((∃ u ∈ users, u.email = some E ∧ u.role = some "admin") →
      verify_admin users E = .ok E) ∧
    (∀ (doctors : List Doctor) (secret : String) (now : Nat) (token : JwtToken),
      get_current_user secret now token = .ok E →
      ((∃ u ∈ users, u.email = some E ∧ u.role = some "admin") →
        handle_get_doctors users doctors secret now token = .ok doctors) ∧
      (¬ (∃ u ∈ users, u.email = some E ∧ u.role = some "admin") →
        handle_get_doctors users doctors secret now token =
          .error ⟨403, "Forbidden access"⟩)) := by
  have core : ((¬ ∃ u ∈ users, u.email = some E ∧ u.role = some "admin") →
        verify_admin users E = .error ⟨403, "Forbidden access"⟩) ∧
      ((∃ u ∈ users, u.email = some E ∧ u.role = some "admin") →
        verify_admin users E = .ok E) := by
    unfold verify_admin
    cases hfind : users.find? (fun u => u.email = some E) with
    | none =>
        refine ⟨fun _ => rfl, ?_⟩
        rintro ⟨u, hu, hue, -⟩
        have := List.find?_eq_none.mp hfind u hu
        simp [hue] at this
    | some u =>
        have hmem : u ∈ users := List.mem_of_find?_eq_some hfind
        have hue : u.email = some E := by
          have := List.find?_some hfind
          simpa using this
        by_cases hrole : u.role = some "admin"
        · refine ⟨fun hno => absurd ⟨u, hmem, hue, hrole⟩ hno, fun _ => ?_⟩
          simp [hrole]
        · refine ⟨fun _ => by simp [hrole], ?_⟩
          rintro ⟨v, hv, hve, hvrole⟩
          have hvu : v = u := huniq v hv u hmem hve hue
          rw [hvu] at hvrole
          exact absurd hvrole hrole
  have iff1 : (verify_admin users E = .error ⟨403, "Forbidden access"⟩) ↔
      ¬ ∃ u ∈ users, u.email = some E ∧ u.role = some "admin" := by
    constructor
    · intro herr hex
      have := core.2 hex
      rw [herr] at this
      exact Except.noConfusion this
    · exact core.1
  refine ⟨iff1, core.2, ?_⟩
  intro doctors secret now token htok
  constructor
  · intro hex
    simp [handle_get_doctors, htok, core.2 hex]
  · intro hno
    simp [handle_get_doctors, htok, iff1.mpr hno]

theorem admin_gate_witness :
    handle_get_doctors
        [{ uid := "1", name := some "Alice", email := some "a@x.com",
           role := some "admin" }]
        [{ name := "Dr. Who", email := "w@x.com", img := "w.png" }]
        "sec" 5 (create_jwt_token "sec" 0 "a@x.com") =
      .ok [{ name := "Dr. Who", email := "w@x.com", img := "w.png" }] ∧
    handle_get_doctors
        [{ uid := "1", name := some "Alice", email := some "a@x.com",
           role := some "user" }]
        [{ name := "Dr. Who", email := "w@x.com", img := "w.png" }]
        "sec" 5 (create_jwt_token "sec" 0 "a@x.com") =
      .error ⟨403, "Forbidden access"⟩ := by
  constructor
  · exact ((admin_gate
        [{ uid := "1", name := some "Alice", email := some "a@x.com",
           role := some "admin" }] "a@x.com" (by decide)).2.2
      [{ name := "Dr. Who", email := "w@x.com", img := "w.png" }]
      "sec" 5 (create_jwt_token "sec" 0 "a@x.com") rfl).1
      ⟨{ uid := "1", name := some "Alice", email := some "a@x.com",
         role := some "admin" }, by simp, rfl, rfl⟩
  · exact ((admin_gate
        [{ uid := "1", name := some "Alice", email := some "a@x.com",
           role := some "user" }] "a@x.com" (by decide)).2.2
      [{ name := "Dr. Who", email := "w@x.com", img := "w.png" }]
      "sec" 5 (create_jwt_token "sec" 0 "a@x.com") rfl).2
      (by decide)

/-- C2: the fetch-then-filter resolver returns one view per stored option
(options with zero remaining slots included), each carrying the option's
name and price and, as slots, the option's slots minus those of bookings on
the requested date for that treatment, in the option's original slot order;
and on a date with no matching bookings (unknown or malformed dates
included) every option comes back with its full slot list, with no failure
path. -/
theorem fetch_then_filter_resolver (options : List AppointmentOption)
    (bookings : List Booking) (date : String)
    (hnone : ∀ b ∈ bookings, b.appointmentDate ≠ date) :
    (∀ options2 bookings2 date2,
      handle_get_appointment_options options2 bookings2 date2 =
        (options2 : List AppointmentOption).map (fun o =>
          { name := o.name,
            slots := o.slots.filter (fun s =>
              ¬ ∃ b ∈ (bookings2 : List Booking), b.appointmentDate = date2 ∧
                b.treatment = o.name ∧ b.slot = s),
            price := o.price : OptionView })) ∧
    ((handle_get_appointment_options options bookings date).length =
      options.length) ∧
    (handle_get_appointment_options options bookings date =
      options.map (fun o => { name := o.name, slots := o.slots, price := o.price })) := by
  have main : ∀ options2 bookings2 date2,
      handle_get_appointment_options options2 bookings2 date2 =
        (options2 : List AppointmentOption).map (fun o =>
          { name := o.name,
            slots := o.slots.filter (fun s =>
              ¬ ∃ b ∈ (bookings2 : List Booking), b.appointmentDate = date2 ∧
                b.treatment = o.name ∧ b.slot = s),
            price := o.price : OptionView }) := by
    intro options2 bookings2 date2
    unfold handle_get_appointment_options
    apply List.map_congr_left
    intro o ho
    simp only [OptionView.mk.injEq, true_and, and_true]
    apply List.filter_congr
    intro s hs
    simp only [decide_eq_decide, List.mem_map, List.mem_filter,
      decide_eq_true_eq]
    constructor
    · intro hnotin
      rintro ⟨b, hb, hbd, hbt, hbs⟩
      exact hnotin ⟨b, ⟨⟨hb, hbd⟩, hbt⟩, hbs⟩
    · intro hnotex
      rintro ⟨b, ⟨⟨hb, hbd⟩, hbt⟩, hbs⟩
      exact hnotex ⟨b, hb, hbd, hbt, hbs⟩
  refine ⟨main, ?_, ?_⟩
  · rw [main]
    simp
  · rw [main options bookings date]
    apply List.map_congr_left
    intro o ho
    simp only [OptionView.mk.injEq, true_and, and_true]
    rw [List.filter_eq_self]
    intro s hs
    simp only [decide_eq_true_eq]
    rintro ⟨b, hb, hbd, -, -⟩
    exact hnone b hb hbd

theorem fetch_then_filter_resolver_witness :
    handle_get_appointment_options
        [{ name := "Cavity Filling",
           slots := ["9:00-10:00", "10:00-11:00"], price := 120 }]
        [{ appointmentDate := "2024-05-01", treatment := "Cavity Filling",
           patient := "Al", slot := "9:00-10:00", email := "a@x.com",
           phone := "1", price := 120 }] "2024-05-01" =
      [{ name := "Cavity Filling", slots := ["10:00-11:00"], price := 120 }] ∧
    handle_get_appointment_options
        [{ name := "Cavity Filling",
           slots := ["9:00-10:00", "10:00-11:00"], price := 120 }]
        [{ appointmentDate := "2024-05-01", treatment := "Cavity Filling",
           patient := "Al", slot := "9:00-10:00", email := "a@x.com",
           phone := "1", price := 120 }] "not-even-a-date" =
      [{ name := "Cavity Filling",
         slots := ["9:00-10:00", "10:00-11:00"], price := 120 }] := by
  constructor
  · rw [(fetch_then_filter_resolver [] [] "" (by simp)).1]
    decide
  · exact (fetch_then_filter_resolver
      [{ name := "Cavity Filling",
         slots := ["9:00-10:00", "10:00-11:00"], price := 120 }]
      [{ appointmentDate := "2024-05-01", treatment := "Cavity Filling",
         patient := "Al", slot := "9:00-10:00", email := "a@x.com",
         phone := "1", price := 120 }] "not-even-a-date" (by decide)).2.2

/-- First-occurrence deduplication is the identity on duplicate-free lists
disjoint from the already-seen set. -/
theorem dedupKeepFirst_eq_self (l : List String) :
    ∀ seen, l.Nodup → (∀ x ∈ l, x ∉ seen) → dedupKeepFirst seen l = l := by
  induction l with
  | nil => intro seen _ _; rfl
  | cons x xs ih =>
      intro seen hnd hdisj
      rw [List.nodup_cons] at hnd
      unfold dedupKeepFirst
      rw [if_neg (hdisj x (List.mem_cons_self x xs))]
      congr 1
      refine ih (x :: seen) hnd.2 ?_
      intro y hy
      rw [List.mem_cons]
      rintro (hyx | hyseen)
      · exact hnd.1 (hyx ▸ hy)
      · exact hdisj y (List.mem_cons_of_mem x hy) hyseen

/-- C1: on every store whose options carry duplicate-free slot lists (the
spec's "duplicates impossible by construction" invariant), the fetch-then-
filter resolver and the aggregation-pipeline resolver return literally the
same list of {name, slots, price} views — same treatments in the same
order, and within each treatment the remaining slots in the option's
original slot order. -/
theorem resolver_equivalence (options : List AppointmentOption)
    (bookings : List Booking) (date : String)
    (hnd : ∀ o ∈ options, o.slots.Nodup) :
    handle_get_appointment_options options bookings date =
      handle_get_v2_appointment_options options bookings date := by
  unfold handle_get_appointment_options handle_get_v2_appointment_options
  apply List.map_congr_left
  intro o ho
  simp only [OptionView.mk.injEq, true_and, and_true]
  unfold setDifference
  rw [dedupKeepFirst_eq_self _ []
      ((hnd o ho).filter _) (by intro x _ h; exact absurd h (List.not_mem_nil x))]
  apply List.filter_congr
  intro s hs
  simp only [decide_eq_decide, List.mem_map, List.mem_filter,
    decide_eq_true_eq]
  constructor
  · intro hnotin
    rintro ⟨b, ⟨hb, hbt, hbd⟩, hbs⟩
    exact hnotin ⟨b, ⟨⟨hb, hbd⟩, hbt⟩, hbs⟩
  · intro hnotin
    rintro ⟨b, ⟨⟨hb, hbd⟩, hbt⟩, hbs⟩
    exact hnotin ⟨b, ⟨hb, hbt, hbd⟩, hbs⟩

theorem resolver_equivalence_witness :
    handle_get_appointment_options
        [{ name := "Cavity Filling",
           slots := ["9:00-10:00", "10:00-11:00"], price := 120 }]
        [{ appointmentDate := "2024-05-01", treatment := "Cavity Filling",
           patient := "Al", slot := "9:00-10:00", email := "a@x.com",
           phone := "1", price := 120 }] "2024-05-01" =
      handle_get_v2_appointment_options
        [{ name := "Cavity Filling",
           slots := ["9:00-10:00", "10:00-11:00"], price := 120 }]
        [{ appointmentDate := "2024-05-01", treatment := "Cavity Filling",
           patient := "Al", slot := "9:00-10:00", email := "a@x.com",
           phone := "1", price := 120 }] "2024-05-01" :=
  resolver_equivalence _ _ "2024-05-01" (by decide)

theorem mk_data (s : String) : String.mk s.data = s := rfl

theorem data_ne_nil_of_ne_empty (s : String) (h : s ≠ "") : s.data ≠ [] := by
  intro hdata
  exact h (by rw [← mk_data s, hdata])

/-- Splitting skips over a whitespace-free word, accumulating it. -/
theorem splitWords_skip_word (w : List Char)
    (hw : ∀ c ∈ w, c.isWhitespace = false) :
    ∀ rest acc : List Char,
      splitWords (w ++ rest) acc = splitWords rest (w.reverse ++ acc) := by
  induction w with
  | nil => intro rest acc; simp
  | cons c w ih =>
      intro rest acc
      have hc : c.isWhitespace = false := hw c (List.mem_cons_self c w)
      have hw2 : ∀ x ∈ w, x.isWhitespace = false :=
        fun x hx => hw x (List.mem_cons_of_mem c hx)
      rw [List.cons_append]
      rw [show splitWords (c :: (w ++ rest)) acc
            = splitWords (w ++ rest) (c :: acc) by simp [splitWords, hc]]
      rw [ih hw2 rest (c :: acc)]
      have hacc : (c :: w).reverse ++ acc = w.reverse ++ (c :: acc) := by simp
      rw [hacc]

/-- A word, one space, and a second word split into exactly those two
words, as Python's `"scheme token".split()` does. -/
theorem pyStrSplit_two_words (S T : String)
    (hS : S ≠ "") (hSw : ∀ c ∈ S.data, c.isWhitespace = false)
    (hT : T ≠ "") (hTw : ∀ c ∈ T.data, c.isWhitespace = false) :
    pyStrSplit (S ++ " " ++ T) = [S, T] := by
  have hSd := data_ne_nil_of_ne_empty S hS
  have hTd := data_ne_nil_of_ne_empty T hT
  have hSrev : S.data.reverse ≠ [] := by simpa using hSd
  have hTrev : T.data.reverse ≠ [] := by simpa using hTd
  have hsp : (' ').isWhitespace = true := rfl
  have hTsplit : splitWords T.data [] = [T] := by
    have h := splitWords_skip_word T.data hTw [] []
    rw [List.append_nil, List.append_nil] at h
    rw [h]
    simp only [splitWords]
    rw [if_neg hTrev]
    simp only [List.reverse_reverse]
  have hdata : (S ++ " " ++ T).data = S.data ++ (' ' :: T.data) := by
    rw [String.data_append, String.data_append]
    simp [show " ".data = [' '] from rfl]
  unfold pyStrSplit
  rw [hdata, splitWords_skip_word S.data hSw (' ' :: T.data) [],
    List.append_nil]
  simp [splitWords, hsp, hSrev, hTsplit, mk_data]

/-- C5: identity verification fails with the 401 "Not authenticated" /
"Invalid authorization header" / "Invalid authentication scheme" family
(the Unauthenticated class) when the authorization header is absent, empty,
does not split into exactly two whitespace-separated tokens, or carries a
scheme whose lowercasing is not "bearer"; otherwise it hands the single
token string to the token check, propagating an invalid-token failure
unchanged and returning the embedded email on success. -/
theorem identity_verification_errors
    (check : String → Except HTTPException String) :
    (verify_jwt check none = .error ⟨401, "Not authenticated"⟩) ∧
    (verify_jwt check (some "") = .error ⟨401, "Not authenticated"⟩) ∧
    (∀ s : String, s ≠ "" → (∀ u v : String, pyStrSplit s ≠ [u, v]) →
      verify_jwt check (some s) = .error ⟨401, "Invalid authorization header"⟩) ∧
    (∀ s scheme token : String, pyStrSplit s = [scheme, token] →
      pyLower scheme ≠ "bearer" →
      verify_jwt check (some s) = .error ⟨401, "Invalid authentication scheme"⟩) ∧
    (∀ s scheme token : String, pyStrSplit s = [scheme, token] →
      pyLower scheme = "bearer" →
      verify_jwt check (some s) = check token) ∧
    (∀ s scheme token email : String, pyStrSplit s = [scheme, token] →
      pyLower scheme = "bearer" → check token = .ok email →
      verify_jwt check (some s) = .ok email) ∧
    (∀ s scheme token : String, ∀ e : HTTPException,
      pyStrSplit s = [scheme, token] →
      pyLower scheme = "bearer" → check token = .error e →
      verify_jwt check (some s) = .error e) := by
  have hnonempty : ∀ s : String, pyStrSplit s ≠ [] → s ≠ "" := by
    intro s hsplit hempty
    rw [hempty] at hsplit
    exact hsplit rfl
  have hmain : ∀ s scheme token : String, pyStrSplit s = [scheme, token] →
      verify_jwt check (some s) =
        if pyLower scheme ≠ "bearer" then
          .error ⟨401, "Invalid authentication scheme"⟩
        else check token := by
    intro s scheme token hsplit
    have hs : s ≠ "" := hnonempty s (by rw [hsplit]; simp)
    simp only [verify_jwt, hsplit]
    rw [if_neg hs]
  refine ⟨rfl, rfl, ?_, ?_, ?_, ?_, ?_⟩
  · intro s hs hnot2
    simp only [verify_jwt]
    rw [if_neg hs]
  · intro s scheme token hsplit hscheme
    rw [hmain s scheme token hsplit, if_pos hscheme]
  · intro s scheme token hsplit hscheme
    rw [hmain s scheme token hsplit, if_neg (by simp [hscheme])]
  · intro s scheme token email hsplit hscheme hok
    rw [hmain s scheme token hsplit, if_neg (by simp [hscheme]), hok]
  · intro s scheme token e hsplit hscheme herr
    rw [hmain s scheme token hsplit, if_neg (by simp [hscheme]), herr]

theorem identity_verification_errors_witness :
    verify_jwt (fun t => Except.ok t) (some "token-without-scheme") =
      .error ⟨401, "Invalid authorization header"⟩ ∧
    verify_jwt (fun t => Except.ok t) (some "basic abc") =
      .error ⟨401, "Invalid authentication scheme"⟩ ∧
    verify_jwt (fun t => Except.ok t) (some "bearer abc") = .ok "abc" ∧
    verify_jwt (fun _ => Except.error ⟨401, "Invalid token"⟩)
        (some "bearer abc") = .error ⟨401, "Invalid token"⟩ := by
  refine ⟨?_, ?_, ?_, ?_⟩
  · refine (identity_verification_errors (fun t => Except.ok t)).2.2.1
      "token-without-scheme" (by decide) ?_
    intro u v h
    rw [show pyStrSplit "token-without-scheme" = ["token-without-scheme"]
      by decide] at h
    simp at h
  · exact (identity_verification_errors (fun t => Except.ok t)).2.2.2.1
      "basic abc" "basic" "abc" (by decide) (by decide)
  · exact (identity_verification_errors (fun t => Except.ok t)).2.2.2.2.2.1
      "bearer abc" "bearer" "abc" "abc" (by decide) (by decide) rfl
  · exact (identity_verification_errors
        (fun _ => Except.error ⟨401, "Invalid token"⟩)).2.2.2.2.2.2
      "bearer abc" "bearer" "abc" ⟨401, "Invalid token"⟩ (by decide)
      (by decide) rfl

/-- C10: the scheme check lowercases before comparing, so any header
"S T" (S and T nonempty and whitespace-free) whose scheme word S lowercases
to "bearer" passes the scheme check and verification proceeds on the token
T, while a scheme word not lowercasing to "bearer" is rejected with a 401
response. -/
theorem bearer_scheme_case_insensitive
    (check : String → Except HTTPException String) (S T : String)
    (hS : S ≠ "") (hSw : ∀ c ∈ S.data, c.isWhitespace = false)
    (hT : T ≠ "") (hTw : ∀ c ∈ T.data, c.isWhitespace = false) :
    (pyLower S = "bearer" →
      verify_jwt check (some (S ++ " " ++ T)) = check T) ∧
    (pyLower S ≠ "bearer" →
      verify_jwt check (some (S ++ " " ++ T)) =
        .error ⟨401, "Invalid authentication scheme"⟩ ∧
      (HTTPException.mk 401 "Invalid authentication scheme").status_code = 401) := by
  have hsplit := pyStrSplit_two_words S T hS hSw hT hTw
  have hne : S ++ " " ++ T ≠ "" := by
    intro h
    have := data_ne_nil_of_ne_empty S hS
    have hd : (S ++ " " ++ T).data = [] := by rw [h]
    rw [String.data_append, String.data_append] at hd
    simp at hd
  constructor
  · intro hlow
    simp only [verify_jwt, hsplit]
    rw [if_neg hne]
    rw [if_neg (by simp [hlow])]
  · intro hlow
    refine ⟨?_, rfl⟩
    simp only [verify_jwt, hsplit]
    rw [if_neg hne]
    rw [if_pos hlow]

theorem bearer_scheme_case_insensitive_witness :
    verify_jwt (fun t => Except.ok t) (some ("BEARER" ++ " " ++ "tok")) =
      .ok "tok" ∧
    verify_jwt (fun t => Except.ok t) (some ("Basic" ++ " " ++ "tok")) =
      .error ⟨401, "Invalid authentication scheme"⟩ := by
  constructor
  · exact (bearer_scheme_case_insensitive (fun t => Except.ok t)
      "BEARER" "tok" (by decide) (by decide) (by decide) (by decide)).1
      (by decide)
  · exact ((bearer_scheme_case_insensitive (fun t => Except.ok t)
      "Basic" "tok" (by decide) (by decide) (by decide) (by decide)).2
      (by decide)).1

end DoctorsPortal
